import Mathlib

/-!
Verification of the bkub boot-artifact server, centered on the TFTP protocol
engine in `src/bootServer/tftp_server.py` and the service lifecycle classes in
`src/bootServer/http_server.py` and `src/bootServer/server.py`.

The embedding is shallow: datagrams are lists of byte values (`List Nat`),
the filesystem is a partial map from resolved absolute paths (component lists)
to file contents, and the remote TFTP client is an oracle mapping each DATA
packet to its reply.  The per-request handler `TftpServer._handle_request`
becomes the pure function `handleRequest`; its inner DATA/ACK block loop
becomes `blockLoopF` (structurally recursive on an explicit iteration bound
that is always sufficient, see `blockLoop`).
-/

namespace Bkub

/-- A packet sent by the server to the peer: either a DATA block
(`struct.pack("!HH", OP_DATA, block_num) + chunk`) or an ERROR packet
(`struct.pack("!H", OP_ERROR) + struct.pack("!H", code) + message`). -/
inductive Packet where
  | DATA (block : Nat) (payload : List Nat)
  | ERROR (code : Nat) (msg : String)
deriving DecidableEq, Repr

/-- What `tx.recvfrom(4)` yields for one DATA packet: either `socket.timeout`
after the 5-second wait, or a raw datagram from the peer. -/
inductive ClientReply where
  | timeout
  | reply (bytes : List Nat)

/-- Terminal states of one request, following the state names of the spec:
`Completed` is the code path where the block loop ends because the final short
chunk was acknowledged; `Aborted` covers every other exit (validation error
sent, transport failure, malformed request). -/
inductive Outcome where
  | Completed
  | Aborted
deriving DecidableEq, Repr

/-- `bytes.split(b"\x00")` from Python: split a byte list on the 0 byte.
Always returns at least one (possibly empty) segment, exactly as Python. -/
def splitOnNul : List Nat → List (List Nat)
  | [] => [[]]
  | 0 :: rest => [] :: splitOnNul rest
  | b :: rest =>
    match splitOnNul rest with
    | [] => [[b]]
    | seg :: segs => (b :: seg) :: segs

/-- A UTF-8 continuation byte (0x80..0xBF). -/
def contByte (c : Nat) : Bool := 128 ≤ c && c ≤ 191

/-- Valid range of the first continuation byte of a 3-byte sequence,
which depends on the lead byte (0xE0 excludes overlongs, 0xED surrogates). -/
def cont3Fst (b c : Nat) : Bool :=
  if b = 224 then 160 ≤ c && c ≤ 191
  else if b = 237 then 128 ≤ c && c ≤ 159
  else contByte c

/-- Valid range of the first continuation byte of a 4-byte sequence,
which depends on the lead byte (0xF0 excludes overlongs, 0xF4 code points
above U+10FFFF). -/
def cont4Fst (b c : Nat) : Bool :=
  if b = 240 then 144 ≤ c && c ≤ 191
  else if b = 244 then 128 ≤ c && c ≤ 143
  else contByte c

/-- Worker for `utf8Ignore`: the first argument is an iteration bound (each
step consumes at least one byte and one unit of the bound, so a bound equal to
the byte-list length is always sufficient; the 0 case is unreachable then). -/
def utf8IgnoreF : Nat → List Nat → List Char
  | 0, _ => []
  | _, [] => []
  | fuel + 1, b :: rest =>
    if b ≤ 127 then Char.ofNat b :: utf8IgnoreF fuel rest
    else if 194 ≤ b && b ≤ 223 then
      match rest with
      | c :: rest2 =>
        if contByte c then Char.ofNat ((b - 192) * 64 + (c - 128)) :: utf8IgnoreF fuel rest2
        else utf8IgnoreF fuel (c :: rest2)
      | [] => []
    else if 224 ≤ b && b ≤ 239 then
      match rest with
      | c1 :: rest2 =>
        if cont3Fst b c1 then
          match rest2 with
          | c2 :: rest3 =>
            if contByte c2 then
              Char.ofNat ((b - 224) * 4096 + (c1 - 128) * 64 + (c2 - 128)) :: utf8IgnoreF fuel rest3
            else utf8IgnoreF fuel (c2 :: rest3)
          | [] => []
        else utf8IgnoreF fuel (c1 :: rest2)
      | [] => []
    else if 240 ≤ b && b ≤ 244 then
      match rest with
      | c1 :: rest2 =>
        if cont4Fst b c1 then
          match rest2 with
          | c2 :: rest3 =>
            if contByte c2 then
              match rest3 with
              | c3 :: rest4 =>
                if contByte c3 then
                  Char.ofNat ((b - 240) * 262144 + (c1 - 128) * 4096 +
                    (c2 - 128) * 64 + (c3 - 128)) :: utf8IgnoreF fuel rest4
                else utf8IgnoreF fuel (c3 :: rest4)
              | [] => []
            else utf8IgnoreF fuel (c2 :: rest3)
          | [] => []
        else utf8IgnoreF fuel (c1 :: rest2)
      | [] => []
    else utf8IgnoreF fuel rest

/-- `bytes.decode("utf-8", errors="ignore")` from Python: decode UTF-8,
dropping each maximal invalid subpart (the lead byte together with the valid
continuation bytes already consumed) and continuing at the offending byte. -/
def utf8Ignore (bs : List Nat) : List Char := utf8IgnoreF bs.length bs

/-- `str.lower()` restricted to ASCII, which is all the mode comparison in the
source can distinguish (`mode.lower() not in ("octet", "binary")`). -/
def asciiLower (cs : List Char) : List Char :=
  cs.map fun c => if 65 ≤ c.toNat && c.toNat ≤ 90 then Char.ofNat (c.toNat + 32) else c

/-- The characters of the accepted mode string "octet". -/
def octetChars : List Char := ['o', 'c', 't', 'e', 't']

/-- The characters of the accepted mode string "binary". -/
def binaryChars : List Char := ['b', 'i', 'n', 'a', 'r', 'y']

/-- One step of path normalization, as done by `Path.resolve()`: empty and `.`
segments vanish, `..` removes the last component (staying at the filesystem
root when there is none), and any other segment is appended. -/
def normJoin (base : List String) (comps : List String) : List String :=
  comps.foldl
    (fun acc comp =>
      if comp = "" || comp = "." then acc
      else if comp = ".." then acc.dropLast
      else acc ++ [comp])
    base

/-- Split a character list on the slash character, like splitting a POSIX path
into segments. -/
def splitSlash : List Char → List (List Char)
  | [] => [[]]
  | '/' :: rest => [] :: splitSlash rest
  | c :: rest =>
    match splitSlash rest with
    | [] => [[c]]
    | seg :: segs => (c :: seg) :: segs

/-- `(self.root_dir / filename.lstrip("/")).resolve()` from the source:
strip leading slashes from the requested name, split it into segments, and
normalize against the (already resolved) root components. -/
def resolveCandidate (root : List String) (fname : List Char) : List String :=
  normJoin root (((splitSlash (fname.dropWhile fun c => c = '/')).map fun cs => String.mk cs))

/-- `str(path)` for an absolute path given by its components: "/" for the
filesystem root, otherwise the components joined by slashes. -/
def pathChars (p : List String) : List Char :=
  match p with
  | [] => ['/']
  | _ => p.foldl (fun acc comp => acc ++ '/' :: comp.toList) []

/-- The containment test the source actually performs:
`str(candidate).startswith(str(self.root_dir))`. -/
def pathInRootCheck (root candidate : List String) : Bool :=
  (pathChars root).isPrefixOf (pathChars candidate)

/-- A candidate resolved path lies outside the root directory, in the ordinary
component-wise sense used by the spec when it says a filename "resolves outside
the root": the root components are not a prefix of the candidate components.
This is the spec-side notion, to be compared with `pathInRootCheck`. -/
def outsideRootDir (root candidate : List String) : Bool :=
  !(root.isPrefixOf candidate)

/-- The transfer (block) loop of `TftpServer._handle_request`, lines 106-133:
read a chunk of up to 512 bytes, send DATA with the current block number on a
fresh socket, wait for the ACK, and stop after the first chunk shorter than
512 bytes.  The first argument is an iteration bound; `blockLoop` below always
supplies one that is large enough, so the 0 case is unreachable from it. -/
def blockLoopF (client : Nat → List Nat → ClientReply) :
    Nat → Nat → List Nat → List Packet × Outcome
  | 0, _, _ => ([], Outcome.Aborted)
  | fuel + 1, blockNum, remaining =>
    let chunk := remaining.take 512
    let pkt := Packet.DATA blockNum chunk
    match client blockNum chunk with
    | ClientReply.timeout => ([pkt], Outcome.Aborted)
    | ClientReply.reply ack =>
      if ack.length < 4 then ([pkt], Outcome.Aborted)
      else if ack.getD 0 0 * 256 + ack.getD 1 0 = 4 ∧
          ack.getD 2 0 * 256 + ack.getD 3 0 = blockNum then
        if chunk.length < 512 then ([pkt], Outcome.Completed)
        else
          let r := blockLoopF client fuel ((blockNum + 1) % 65536) (remaining.drop 512)
          (pkt :: r.1, r.2)
      else ([pkt], Outcome.Aborted)

/-- The block loop started the way `_handle_request` starts it: block number 1,
the whole file still to send, and an iteration bound that covers every block
(one block per 512 bytes, plus the final short or empty block). -/
def blockLoop (client : Nat → List Nat → ClientReply) (fileBytes : List Nat) :
    List Packet × Outcome :=
  blockLoopF client (fileBytes.length / 512 + 1) 1 fileBytes

/-- `TftpServer._handle_request` as a pure function: `root` is the resolved
root directory, `fs` maps resolved paths to the contents of existing regular
files, `client` answers each DATA packet, `data` is the received datagram.
Returns the packets sent to the peer (in order) and the terminal outcome. -/
def handleRequest (root : List String) (fs : List String → Option (List Nat))
    (client : Nat → List Nat → ClientReply) (data : List Nat) : List Packet × Outcome :=
  match data with
  | b0 :: b1 :: rest =>
    if b0 * 256 + b1 ≠ 1 then ([Packet.ERROR 4 "Illegal TFTP operation"], Outcome.Aborted)
    else
      match splitOnNul rest with
      | p0 :: p1 :: _ =>
        let fname := utf8Ignore p0
        let mode := asciiLower (utf8Ignore p1)
        if mode = octetChars ∨ mode = binaryChars then
          let candidate := resolveCandidate root fname
          if pathInRootCheck root candidate then
            match fs candidate with
            | some bytes => blockLoop client bytes
            | none => ([Packet.ERROR 1 "File not found"], Outcome.Aborted)
          else ([Packet.ERROR 2 "Access violation"], Outcome.Aborted)
        else ([Packet.ERROR 0 "Only octet mode supported"], Outcome.Aborted)
      | _ => ([Packet.ERROR 0 "Malformed RRQ"], Outcome.Aborted)
  | _ => ([Packet.ERROR 0 "Invalid packet"], Outcome.Aborted)

/-- The well-behaved client: answers every DATA packet with
`struct.pack("!HH", OP_ACK, block_num)`, the matching ACK. -/
def ackOf (blockNum : Nat) : List Nat := [0, 4, blockNum / 256, blockNum % 256]

/-- A client that ACKs every DATA packet with the matching block number. -/
def goodClient : Nat → List Nat → ClientReply :=
  fun blockNum _ => ClientReply.reply (ackOf blockNum)

/-- Concatenation of the DATA payloads of a packet trace, in order. -/
def payloadConcat : List Packet → List Nat
  | [] => []
  | Packet.DATA _ pl :: rest => pl ++ payloadConcat rest
  | Packet.ERROR _ _ :: rest => payloadConcat rest

/-- The payload of a packet (empty for ERROR packets). -/
def payloadOf : Packet → List Nat
  | Packet.DATA _ pl => pl
  | Packet.ERROR _ _ => []

/-- Whether a packet is a DATA packet. -/
def Packet.isData : Packet → Bool
  | Packet.DATA _ _ => true
  | Packet.ERROR _ _ => false

/-- Lifecycle state of `TftpServer` (`src/bootServer/tftp_server.py`): `sock`
models `_sock` together with the port the socket is bound to (what
`sock.getsockname()[1]` reports), `sock_port` the attribute of the same name,
`thread` whether a live serve-loop thread exists.  The `_stop_event` flag is
omitted: it only signals the serve loop and is cleared again by `start`. -/
structure TftpServer where
  sock : Option Nat
  sock_port : Option Nat
  thread : Bool
deriving DecidableEq, Repr

/-- `TftpServer.__init__`: no socket, no reported port, no thread. -/
def tftpInit : TftpServer := { sock := none, sock_port := none, thread := false }

/-- `TftpServer.start`, lines 32-43: returns immediately when a socket already
exists; otherwise binds a socket (the OS assigns `osPort`), records the bound
port and starts the serve thread. -/
def TftpServer.start (osPort : Nat) (s : TftpServer) : TftpServer :=
  if s.sock.isSome then s
  else { sock := some osPort, sock_port := some osPort, thread := true }

/-- `TftpServer.stop`, lines 45-61: closes and clears the socket when present,
joins and clears the thread, and unconditionally clears `sock_port`. -/
def TftpServer.stop (_s : TftpServer) : TftpServer :=
  { sock := none, sock_port := none, thread := false }

/-- Lifecycle state of `HttpFileServer` (`src/bootServer/http_server.py`):
`server` models whether `_server` is set, `sock_port` the reported port. -/
structure HttpFileServer where
  server : Bool
  sock_port : Option Nat
deriving DecidableEq, Repr

/-- `HttpFileServer.__init__`. -/
def httpInit : HttpFileServer := { server := false, sock_port := none }

/-- `HttpFileServer.start`, lines 24-34: returns immediately when `_server` is
set; otherwise creates and binds the HTTP server and records its port. -/
def HttpFileServer.start (osPort : Nat) (s : HttpFileServer) : HttpFileServer :=
  if s.server then s
  else { server := true, sock_port := some osPort }

/-- `HttpFileServer.stop`, lines 36-50: shuts down and clears `_server` when
present, joins the thread, and unconditionally clears `sock_port`. -/
def HttpFileServer.stop (_s : HttpFileServer) : HttpFileServer :=
  { server := false, sock_port := none }

/-- Lifecycle state of `HttpsFileServer` (`src/bootServer/http_server.py`):
like `HttpFileServer` plus the configured certificate and key file paths
(`none` models an absent / not-provided path). -/
structure HttpsFileServer where
  server : Bool
  sock_port : Option Nat
  certfile : Option String
  keyfile : Option String
deriving DecidableEq, Repr

/-- `HttpsFileServer.__init__` with the given certificate and key paths. -/
def httpsInit (cert key : Option String) : HttpsFileServer :=
  { server := false, sock_port := none, certfile := cert, keyfile := key }

/-- `HttpsFileServer.start`, lines 65-87: returns immediately when `_server`
is set; raises `ValueError` when either the certificate or the key path is
absent (before creating any socket); otherwise binds, wraps the socket in TLS
and records the port.  `Except.error` models the raised exception, in which
case no state was mutated. -/
def HttpsFileServer.start (osPort : Nat) (s : HttpsFileServer) : Except String HttpsFileServer :=
  if s.server then Except.ok s
  else if s.certfile.isNone || s.keyfile.isNone then
    Except.error "Both certfile and keyfile are required for HTTPS"
  else Except.ok { s with server := true, sock_port := some osPort }

/-- `HttpsFileServer.stop`, lines 89-103. -/
def HttpsFileServer.stop (s : HttpsFileServer) : HttpsFileServer :=
  { s with server := false, sock_port := none }

/-- State of the service lifecycle manager `bootServer`: the three owned
services plus the enable flags from its constructor. -/
structure BootServerState where
  http : HttpFileServer
  https : HttpsFileServer
  tftp : TftpServer
  enable_https : Bool
  enable_tftp : Bool
deriving DecidableEq, Repr

/-- Modelled from the spec: the HTTPS-aware `bootServer.start` composition is
not in `src/` — the `bootServer` in `src/bootServer/server.py` predates HTTPS
support, while its callers (`src/bootServer/cli.py`) and the tests construct
`bootServer(..., enable_https=..., ssl_certfile=..., ssl_keyfile=...)` and read
`https_sock_port` and `_http`/`_https`/`_tftp` sub-servers.  Per the spec
(section 4.5): HTTP is always started first; when HTTPS is enabled the HTTPS
capability is started next, and a missing certificate or key raises a
configuration error before the TFTP listener is started (leaving the partial
start for the caller to clean up); the TFTP listener (when enabled) is started
last.  The certificate/key check itself is the one implemented by
`HttpsFileServer.start` in `src/bootServer/http_server.py`.  The first result
component is the raised configuration error, when any. -/
def bootServer.start (hp hsp tp : Nat) (s : BootServerState) : Option String × BootServerState :=
  let s1 := { s with http := HttpFileServer.start hp s.http }
  if s.enable_https then
    match HttpsFileServer.start hsp s.https with
    | Except.error e => (some e, s1)
    | Except.ok h2 =>
      let s2 := { s1 with https := h2 }
      (none, { s2 with tftp := if s.enable_tftp then TftpServer.start tp s2.tftp else s2.tftp })
  else
    (none, { s1 with tftp := if s.enable_tftp then TftpServer.start tp s1.tftp else s1.tftp })

/-- The per-service `ListenerState` invariant of the spec (section 3) for the
TFTP listener: the reported bound port is set exactly when a bound socket
exists. -/
def TftpServer.portMatchesRunning (s : TftpServer) : Prop :=
  s.sock_port.isSome = s.sock.isSome

/-- The `ListenerState` invariant for the HTTP service. -/
def HttpFileServer.portMatchesRunning (s : HttpFileServer) : Prop :=
  s.sock_port.isSome = s.server

/-- The `ListenerState` invariant for the HTTPS service. -/
def HttpsFileServer.portMatchesRunning (s : HttpsFileServer) : Prop :=
  s.sock_port.isSome = s.server

instance (s : TftpServer) : Decidable s.portMatchesRunning := by
  unfold TftpServer.portMatchesRunning; infer_instance

instance (s : HttpFileServer) : Decidable s.portMatchesRunning := by
  unfold HttpFileServer.portMatchesRunning; infer_instance

instance (s : HttpsFileServer) : Decidable s.portMatchesRunning := by
  unfold HttpsFileServer.portMatchesRunning; infer_instance

/-- A client that never acknowledges an empty DATA payload (it lets the
5-second wait expire) but ACKs every other block correctly. -/
def noAckOnEmpty : Nat → List Nat → ClientReply :=
  fun blockNum chunk =>
    if chunk.isEmpty then ClientReply.timeout else ClientReply.reply (ackOf blockNum)

lemma splitOnNul_append (a b : List Nat) (ha : 0 ∉ a) :
    splitOnNul (a ++ 0 :: b) = a :: splitOnNul b := by
  induction a with
  | nil => simp [splitOnNul]
  | cons x xs ih =>
    have hx : x ≠ 0 := fun h => ha (by simp [h])
    have hxs : 0 ∉ xs := fun h => ha (List.mem_cons_of_mem _ h)
    cases x with
    | zero => exact absurd rfl hx
    | succ m => simp [splitOnNul, ih hxs]

/-- The three transport failures of the block loop (spec section 4.3 step 4):
timeout, a reply shorter than 4 bytes, or a reply that is not the matching
ACK. -/
def isTransportFailure (r : ClientReply) (blockNum : Nat) : Bool :=
  match r with
  | ClientReply.timeout => true
  | ClientReply.reply ack =>
    if ack.length < 4 then true
    else if ack.getD 0 0 * 256 + ack.getD 1 0 = 4 ∧
        ack.getD 2 0 * 256 + ack.getD 3 0 = blockNum then false
    else true

/-- One loop iteration when the client replies with the matching ACK and the
chunk is the final (short) one. -/
lemma blockLoopF_step_ack_small (client : Nat → List Nat → ClientReply)
    (n blockNum : Nat) (remaining : List Nat)
    (hack : client blockNum (remaining.take 512) = ClientReply.reply (ackOf blockNum))
    (_hb : blockNum < 65536) (hsmall : remaining.length < 512) :
    blockLoopF client (n + 1) blockNum remaining =
      ([Packet.DATA blockNum (remaining.take 512)], Outcome.Completed) := by
  have hc : blockNum / 256 * 256 + blockNum % 256 = blockNum := by omega
  simp only [blockLoopF, hack, ackOf]
  simp [List.getD, hc, hsmall]

/-- One loop iteration when the client replies with the matching ACK and a
full 512-byte chunk remains: the loop continues with the next block number. -/
lemma blockLoopF_step_ack_big (client : Nat → List Nat → ClientReply)
    (n blockNum : Nat) (remaining : List Nat)
    (hack : client blockNum (remaining.take 512) = ClientReply.reply (ackOf blockNum))
    (_hb : blockNum < 65536) (hbig : ¬ remaining.length < 512) :
    blockLoopF client (n + 1) blockNum remaining =
      (Packet.DATA blockNum (remaining.take 512) ::
          (blockLoopF client n ((blockNum + 1) % 65536) (remaining.drop 512)).1,
        (blockLoopF client n ((blockNum + 1) % 65536) (remaining.drop 512)).2) := by
  have hc : blockNum / 256 * 256 + blockNum % 256 = blockNum := by omega
  simp only [blockLoopF, hack, ackOf]
  simp [List.getD, hc, hbig]

/-- One loop iteration when the reply is a transport failure: the DATA packet
for the current block is the only packet sent, and the loop aborts. -/
lemma blockLoopF_step_fail (client : Nat → List Nat → ClientReply)
    (n blockNum : Nat) (remaining : List Nat)
    (hfail : isTransportFailure (client blockNum (remaining.take 512)) blockNum = true) :
    blockLoopF client (n + 1) blockNum remaining =
      ([Packet.DATA blockNum (remaining.take 512)], Outcome.Aborted) := by
  rcases hc : client blockNum (remaining.take 512) with _ | ack
  · simp [blockLoopF, hc]
  · rw [hc] at hfail
    simp only [isTransportFailure] at hfail
    by_cases hlen : ack.length < 4
    · simp [blockLoopF, hc, hlen]
    · rw [if_neg hlen] at hfail
      by_cases hok : ack.getD 0 0 * 256 + ack.getD 1 0 = 4 ∧
          ack.getD 2 0 * 256 + ack.getD 3 0 = blockNum
      · rw [if_pos hok] at hfail
        exact absurd hfail (by simp)
      · simp only [blockLoopF, hc]
        rw [if_neg hlen, if_neg hok]

lemma blockLoopF_all_data (client : Nat → List Nat → ClientReply) :
    ∀ (fuel blockNum : Nat) (remaining : List Nat),
      ∀ p ∈ (blockLoopF client fuel blockNum remaining).1, p.isData = true := by
  intro fuel
  induction fuel with
  | zero => intro blockNum remaining p hp; simp [blockLoopF] at hp
  | succ n ih =>
    intro blockNum remaining p hp
    simp only [blockLoopF] at hp
    split at hp
    · simp at hp
      simp [hp, Packet.isData]
    · split at hp
      · simp at hp
        simp [hp, Packet.isData]
      · split at hp
        · split at hp
          · simp at hp
            simp [hp, Packet.isData]
          · simp at hp
            rcases hp with hp | hp
            · simp [hp, Packet.isData]
            · exact ih _ _ p hp
        · simp at hp
          simp [hp, Packet.isData]

lemma blockLoopF_goodClient (fuel : Nat) :
    ∀ (remaining : List Nat) (blockNum : Nat),
      remaining.length < fuel * 512 → blockNum < 65536 →
      (blockLoopF goodClient fuel blockNum remaining).2 = Outcome.Completed ∧
      payloadConcat (blockLoopF goodClient fuel blockNum remaining).1 = remaining ∧
      ∀ i, i < (blockLoopF goodClient fuel blockNum remaining).1.length →
        (blockLoopF goodClient fuel blockNum remaining).1.get? i =
          some (Packet.DATA ((blockNum + i) % 65536) ((remaining.drop (512 * i)).take 512)) := by
  induction fuel with
  | zero => intro remaining blockNum hlen _; exact absurd hlen (by omega)
  | succ n ih =>
    intro remaining blockNum hlen hb
    by_cases hsmall : remaining.length < 512
    · have htake : remaining.take 512 = remaining := List.take_of_length_le (by omega)
      rw [blockLoopF_step_ack_small goodClient n blockNum remaining rfl hb hsmall]
      refine ⟨rfl, by simp [payloadConcat, htake], ?_⟩
      intro i hi
      have hi0 : i = 0 := by simpa using hi
      subst hi0
      simp [htake, Nat.mod_eq_of_lt hb]
    · obtain ⟨ih1, ih2, ih3⟩ :=
        ih (remaining.drop 512) ((blockNum + 1) % 65536)
          (by rw [List.length_drop]; omega) (Nat.mod_lt _ (by omega))
      rw [blockLoopF_step_ack_big goodClient n blockNum remaining rfl hb hsmall]
      refine ⟨ih1, ?_, ?_⟩
      · simp only [payloadConcat]
        rw [ih2]
        exact List.take_append_drop 512 remaining
      · intro i hi
        cases i with
        | zero => simp [Nat.mod_eq_of_lt hb]
        | succ j =>
          have hj : j < (blockLoopF goodClient n ((blockNum + 1) % 65536)
              (remaining.drop 512)).1.length := by
            simpa using hi
          have e1 : ((blockNum + 1) % 65536 + j) % 65536 = (blockNum + (j + 1)) % 65536 := by
            omega
          have e2 : (remaining.drop 512).drop (512 * j) = remaining.drop (512 * (j + 1)) := by
            rw [List.drop_drop]
            congr 1
            ring
          rw [List.get?_cons_succ, ih3 j hj, e1, e2]

lemma blockLoopF_goodClient_dvd (fuel : Nat) :
    ∀ (remaining : List Nat) (blockNum : Nat),
      remaining.length < fuel * 512 → blockNum < 65536 → 512 ∣ remaining.length →
      ∃ pre b,
        blockLoopF goodClient fuel blockNum remaining =
          (pre ++ [Packet.DATA b []], Outcome.Completed) ∧
        ∀ p ∈ pre, (payloadOf p).length = 512 := by
  induction fuel with
  | zero => intro remaining blockNum hlen _ _; exact absurd hlen (by omega)
  | succ n ih =>
    intro remaining blockNum hlen hb hdvd
    by_cases hz : remaining.length = 0
    · have hnil : remaining = [] := List.length_eq_zero.mp hz
      subst hnil
      refine ⟨[], blockNum, ?_, by simp⟩
      rw [blockLoopF_step_ack_small goodClient n blockNum [] rfl hb (by simp)]
      simp
    · have h512 : 512 ≤ remaining.length := by
        rcases hdvd with ⟨k, hk⟩
        rcases k with _ | m
        · omega
        · have : 512 * (m + 1) = 512 * m + 512 := by ring
          omega
      obtain ⟨pre, bb, heq, hpre⟩ :=
        ih (remaining.drop 512) ((blockNum + 1) % 65536)
          (by rw [List.length_drop]; omega) (Nat.mod_lt _ (by omega))
          (by rw [List.length_drop]; exact Nat.dvd_sub' hdvd dvd_rfl)
      refine ⟨Packet.DATA blockNum (remaining.take 512) :: pre, bb, ?_, ?_⟩
      · rw [blockLoopF_step_ack_big goodClient n blockNum remaining rfl hb (by omega), heq]
        simp
      · intro p hp
        rcases List.mem_cons.mp hp with hp | hp
        · subst hp
          simp [payloadOf, List.length_take]
          omega
        · exact hpre p hp

lemma blockLoopF_noAckOnEmpty (fuel : Nat) :
    ∀ (remaining : List Nat) (blockNum : Nat),
      remaining.length < fuel * 512 → blockNum < 65536 → 512 ∣ remaining.length →
      (blockLoopF noAckOnEmpty fuel blockNum remaining).2 = Outcome.Aborted := by
  induction fuel with
  | zero => intro remaining blockNum hlen _ _; exact absurd hlen (by omega)
  | succ n ih =>
    intro remaining blockNum hlen hb hdvd
    by_cases hz : remaining.length = 0
    · have hnil : remaining = [] := List.length_eq_zero.mp hz
      subst hnil
      simp [blockLoopF, noAckOnEmpty]
    · have h512 : 512 ≤ remaining.length := by
        rcases hdvd with ⟨k, hk⟩
        rcases k with _ | m
        · omega
        · have : 512 * (m + 1) = 512 * m + 512 := by ring
          omega
      have hne : remaining.take 512 ≠ [] := by
        have hl : (remaining.take 512).length = 512 := by rw [List.length_take]; omega
        intro h
        rw [h] at hl
        simp at hl
      have hemp : (remaining.take 512).isEmpty = false := by
        cases htk : remaining.take 512 with
        | nil => exact absurd htk hne
        | cons a l => rfl
      have hack : noAckOnEmpty blockNum (remaining.take 512) =
          ClientReply.reply (ackOf blockNum) := by
        simp [noAckOnEmpty, hemp]
      rw [blockLoopF_step_ack_big noAckOnEmpty n blockNum remaining hack hb (by omega)]
      exact ih (remaining.drop 512) ((blockNum + 1) % 65536)
        (by rw [List.length_drop]; omega) (Nat.mod_lt _ (by omega))
        (by rw [List.length_drop]; exact Nat.dvd_sub' hdvd dvd_rfl)

/-- Unfolding of `handleRequest` on a well-formed RRQ datagram
`opcode 1, filename bytes, NUL, mode bytes, NUL` whose fields contain no NUL
bytes: parsing always succeeds and the handler proceeds to the mode check. -/
lemma handleRequest_parsed (root : List String) (fs : List String → Option (List Nat))
    (client : Nat → List Nat → ClientReply) (fbytes mbytes : List Nat)
    (hf : 0 ∉ fbytes) (hm : 0 ∉ mbytes) :
    handleRequest root fs client (0 :: 1 :: (fbytes ++ 0 :: (mbytes ++ [0]))) =
      (if asciiLower (utf8Ignore mbytes) = octetChars ∨
          asciiLower (utf8Ignore mbytes) = binaryChars then
        if pathInRootCheck root (resolveCandidate root (utf8Ignore fbytes)) then
          match fs (resolveCandidate root (utf8Ignore fbytes)) with
          | some bytes => blockLoop client bytes
          | none => ([Packet.ERROR 1 "File not found"], Outcome.Aborted)
        else ([Packet.ERROR 2 "Access violation"], Outcome.Aborted)
      else ([Packet.ERROR 0 "Only octet mode supported"], Outcome.Aborted)) := by
  have hsplit : splitOnNul (fbytes ++ 0 :: (mbytes ++ [0])) = [fbytes, mbytes, []] := by
    rw [splitOnNul_append _ _ hf, splitOnNul_append _ _ hm]
    rfl
  simp only [handleRequest]
  rw [if_neg (by norm_num : ¬((0 : Nat) * 256 + 1 ≠ 1)), hsplit]

/-- `handleRequest` on a well-formed RRQ with an accepted mode, a resolved
path passing the containment check, and an existing file: the request becomes
exactly the block loop on the bytes of the file. -/
lemma handleRequest_rrq_file (root : List String) (fs : List String → Option (List Nat))
    (client : Nat → List Nat → ClientReply) (fbytes mbytes file : List Nat)
    (hf : 0 ∉ fbytes) (hm : 0 ∉ mbytes)
    (hmode : asciiLower (utf8Ignore mbytes) = octetChars ∨
      asciiLower (utf8Ignore mbytes) = binaryChars)
    (hsafe : pathInRootCheck root (resolveCandidate root (utf8Ignore fbytes)) = true)
    (hfile : fs (resolveCandidate root (utf8Ignore fbytes)) = some file) :
    handleRequest root fs client (0 :: 1 :: (fbytes ++ 0 :: (mbytes ++ [0]))) =
      blockLoop client file := by
  rw [handleRequest_parsed root fs client fbytes mbytes hf hm, if_pos hmode, if_pos hsafe, hfile]

/-- The UTF-8 bytes of the filename "boot.img" of concrete scenario A. -/
def bootImgName : List Nat := [98, 111, 111, 116, 46, 105, 109, 103]

/-- The UTF-8 bytes of the mode string "octet". -/
def octetBytes : List Nat := [111, 99, 116, 101, 116]

/-- The 800-byte file of concrete scenario A: `0x41` repeated 800 times. -/
def bootImg : List Nat := List.replicate 800 65

/-- The filesystem of concrete scenario A: the root `/srv/boot` contains just
the regular file `boot.img`. -/
def fsScenarioA : List String → Option (List Nat) :=
  fun p => if p = ["srv", "boot", "boot.img"] then some bootImg else none

/-- C1: for every RRQ naming an existing regular file under the root with an
accepted mode, against a client that ACKs every DATA packet with the matching
block number, the transfer completes and the DATA payloads concatenated in
block order are exactly the bytes of the file, with block numbers starting at
1 (and wrapping modulo 65536). -/
theorem c1_valid_rrq_completes (root : List String) (fs : List String → Option (List Nat))
    (fbytes mbytes file : List Nat)
    (hf : 0 ∉ fbytes) (hm : 0 ∉ mbytes)
    (hmode : asciiLower (utf8Ignore mbytes) = octetChars ∨
      asciiLower (utf8Ignore mbytes) = binaryChars)
    (hsafe : pathInRootCheck root (resolveCandidate root (utf8Ignore fbytes)) = true)
    (hfile : fs (resolveCandidate root (utf8Ignore fbytes)) = some file) :
    ∃ trace,
      handleRequest root fs goodClient (0 :: 1 :: (fbytes ++ 0 :: (mbytes ++ [0]))) =
        (trace, Outcome.Completed) ∧
      payloadConcat trace = file ∧
      ∀ i, i < trace.length →
        trace.get? i =
          some (Packet.DATA ((1 + i) % 65536) ((file.drop (512 * i)).take 512)) := by
  rw [handleRequest_rrq_file root fs goodClient fbytes mbytes file hf hm hmode hsafe hfile]
  obtain ⟨h1, h2, h3⟩ :=
    blockLoopF_goodClient (file.length / 512 + 1) file 1 (by omega) (by norm_num)
  refine ⟨(blockLoopF goodClient (file.length / 512 + 1) 1 file).1, ?_, h2, h3⟩
  rw [← h1]
  rfl

set_option maxRecDepth 8192 in
/-- Witness for C1: concrete scenario A, an 800-byte file served from
`/srv/boot` as two DATA blocks. -/
theorem c1_valid_rrq_completes_witness :
    (0 ∉ bootImgName) ∧ (0 ∉ octetBytes) ∧
    (asciiLower (utf8Ignore octetBytes) = octetChars ∨
      asciiLower (utf8Ignore octetBytes) = binaryChars) ∧
    pathInRootCheck ["srv", "boot"]
      (resolveCandidate ["srv", "boot"] (utf8Ignore bootImgName)) = true ∧
    fsScenarioA (resolveCandidate ["srv", "boot"] (utf8Ignore bootImgName)) = some bootImg ∧
    ∃ trace,
      handleRequest ["srv", "boot"] fsScenarioA goodClient
        (0 :: 1 :: (bootImgName ++ 0 :: (octetBytes ++ [0]))) = (trace, Outcome.Completed) ∧
      payloadConcat trace = bootImg ∧
      ∀ i, i < trace.length →
        trace.get? i =
          some (Packet.DATA ((1 + i) % 65536) ((bootImg.drop (512 * i)).take 512)) :=
  ⟨by decide, by decide, Or.inl (by decide), by decide, by decide,
    c1_valid_rrq_completes ["srv", "boot"] fsScenarioA bootImgName octetBytes bootImg
      (by decide) (by decide) (Or.inl (by decide)) (by decide) (by decide)⟩

/-- C2: for every file whose size is a multiple of 512 (the empty file
included), the good-client transfer consists of full 512-byte DATA blocks
followed by exactly one zero-length final DATA block and completes; and when
the client does not acknowledge the zero-length block, the transfer aborts
instead of completing, so the final empty block must be ACKed. -/
theorem c2_multiple_of_512_final_empty_block (file : List Nat)
    (hdvd : 512 ∣ file.length) :
    (∃ pre b,
      blockLoop goodClient file = (pre ++ [Packet.DATA b []], Outcome.Completed) ∧
      ∀ p ∈ pre, (payloadOf p).length = 512) ∧
    (blockLoop noAckOnEmpty file).2 = Outcome.Aborted := by
  constructor
  · exact blockLoopF_goodClient_dvd (file.length / 512 + 1) file 1 (by omega) (by norm_num) hdvd
  · exact blockLoopF_noAckOnEmpty (file.length / 512 + 1) file 1 (by omega) (by norm_num) hdvd

set_option maxRecDepth 8192 in
/-- Witness for C2: a 1024-byte file, sent as two full blocks plus one final
empty block. -/
theorem c2_multiple_of_512_witness :
    512 ∣ (List.replicate 1024 65 : List Nat).length ∧
    ((∃ pre b,
      blockLoop goodClient (List.replicate 1024 65) =
        (pre ++ [Packet.DATA b []], Outcome.Completed) ∧
      ∀ p ∈ pre, (payloadOf p).length = 512) ∧
    (blockLoop noAckOnEmpty (List.replicate 1024 65)).2 = Outcome.Aborted) :=
  ⟨⟨2, by simp⟩, c2_multiple_of_512_final_empty_block (List.replicate 1024 65) ⟨2, by simp⟩⟩

/-- The UTF-8 bytes of the filename "../boot-evil/secret". -/
def evilSecretName : List Nat :=
  [46, 46, 47, 98, 111, 111, 116, 45, 101, 118, 105, 108, 47, 115, 101, 99, 114, 101, 116]

/-- A filesystem in which the sibling directory `/srv/boot-evil` of the root
`/srv/boot` contains a regular file `secret`. -/
def fsEvilSecret : List String → Option (List Nat) :=
  fun p => if p = ["srv", "boot-evil", "secret"] then some [1, 2, 3] else none

/-- Counterexample to C3 as stated: for root `/srv/boot` the requested
filename "../boot-evil/secret" resolves to `/srv/boot-evil/secret`, which
lies outside the root directory, yet the handler sends no ERROR packet at
all — it opens the file and serves it, because the string-prefix containment
check accepts `/srv/boot-evil/secret` as an extension of `/srv/boot`. -/
theorem c3_counterexample_sibling_escape :
    outsideRootDir ["srv", "boot"]
      (resolveCandidate ["srv", "boot"] (utf8Ignore evilSecretName)) = true ∧
    handleRequest ["srv", "boot"] fsEvilSecret goodClient
      (0 :: 1 :: (evilSecretName ++ 0 :: (octetBytes ++ [0]))) =
      ([Packet.DATA 1 [1, 2, 3]], Outcome.Completed) := by
  decide

/-- C3 (amended): for every requested filename whose resolved path fails the
string-prefix containment check actually performed by the code (in particular
"../secret", whose resolution does not extend the root as a string), the
handler sends ERROR code 2 and never opens any file — the response is the
same for every filesystem and every client. -/
theorem c3_access_violation_rejected (root : List String) (fbytes mbytes : List Nat)
    (hf : 0 ∉ fbytes) (hm : 0 ∉ mbytes)
    (hmode : asciiLower (utf8Ignore mbytes) = octetChars ∨
      asciiLower (utf8Ignore mbytes) = binaryChars)
    (hviol : pathInRootCheck root (resolveCandidate root (utf8Ignore fbytes)) = false) :
    ∀ (fs : List String → Option (List Nat)) (client : Nat → List Nat → ClientReply),
      handleRequest root fs client (0 :: 1 :: (fbytes ++ 0 :: (mbytes ++ [0]))) =
        ([Packet.ERROR 2 "Access violation"], Outcome.Aborted) := by
  intro fs client
  rw [handleRequest_parsed root fs client fbytes mbytes hf hm, if_pos hmode,
    if_neg (by simp [hviol])]

/-- The UTF-8 bytes of the filename "../secret". -/
def dotDotSecretName : List Nat := [46, 46, 47, 115, 101, 99, 114, 101, 116]

/-- Witness for the amended C3: "../secret" from root `/srv/boot` resolves to
`/srv/secret`, fails the prefix check, and is answered with ERROR code 2. -/
theorem c3_access_violation_witness :
    (0 ∉ dotDotSecretName) ∧ (0 ∉ octetBytes) ∧
    (asciiLower (utf8Ignore octetBytes) = octetChars ∨
      asciiLower (utf8Ignore octetBytes) = binaryChars) ∧
    pathInRootCheck ["srv", "boot"]
      (resolveCandidate ["srv", "boot"] (utf8Ignore dotDotSecretName)) = false ∧
    handleRequest ["srv", "boot"] fsEvilSecret goodClient
      (0 :: 1 :: (dotDotSecretName ++ 0 :: (octetBytes ++ [0]))) =
      ([Packet.ERROR 2 "Access violation"], Outcome.Aborted) :=
  ⟨by decide, by decide, Or.inl (by decide), by decide,
    c3_access_violation_rejected ["srv", "boot"] dotDotSecretName octetBytes
      (by decide) (by decide) (Or.inl (by decide)) (by decide) fsEvilSecret goodClient⟩

/-- The UTF-8 bytes of the filename "../boot-evil/cfg". -/
def evilCfgName : List Nat :=
  [46, 46, 47, 98, 111, 111, 116, 45, 101, 118, 105, 108, 47, 99, 102, 103]

/-- A filesystem in which the sibling directory `/srv/boot-evil` of the root
`/srv/boot` contains a regular file `cfg`. -/
def fsEvilCfg : List String → Option (List Nat) :=
  fun p => if p = ["srv", "boot-evil", "cfg"] then some [9] else none

/-- C4: there is a root directory and a requested filename whose resolved
path lies outside the root (component-wise) in a sibling directory whose name
extends the root as a string — root `/srv/boot`, resolved path
`/srv/boot-evil/cfg` — which the string-prefix containment check accepts, so
no ERROR code 2 is sent and the file is served. -/
theorem c4_string_prefix_gap :
    outsideRootDir ["srv", "boot"]
      (resolveCandidate ["srv", "boot"] (utf8Ignore evilCfgName)) = true ∧
    pathInRootCheck ["srv", "boot"]
      (resolveCandidate ["srv", "boot"] (utf8Ignore evilCfgName)) = true ∧
    handleRequest ["srv", "boot"] fsEvilCfg goodClient
      (0 :: 1 :: (evilCfgName ++ 0 :: (octetBytes ++ [0]))) =
      ([Packet.DATA 1 [9]], Outcome.Completed) := by
  decide

/-- C5: every datagram of at least two bytes whose leading big-endian 16-bit
opcode is not 1 (RRQ) — WRQ and all other opcodes alike — is answered with
ERROR code 4, for every filesystem and every client, and nothing else
happens. -/
theorem c5_non_rrq_rejected (root : List String) (fs : List String → Option (List Nat))
    (client : Nat → List Nat → ClientReply) (b0 b1 : Nat) (rest : List Nat)
    (hop : b0 * 256 + b1 ≠ 1) :
    handleRequest root fs client (b0 :: b1 :: rest) =
      ([Packet.ERROR 4 "Illegal TFTP operation"], Outcome.Aborted) := by
  simp only [handleRequest]
  rw [if_pos hop]

/-- Witness for C5: a WRQ (opcode 2) is answered with ERROR code 4. -/
theorem c5_non_rrq_rejected_witness :
    ((0 : Nat) * 256 + 2 ≠ 1) ∧
    handleRequest ["srv", "boot"] fsScenarioA goodClient [0, 2] =
      ([Packet.ERROR 4 "Illegal TFTP operation"], Outcome.Aborted) :=
  ⟨by decide,
    c5_non_rrq_rejected ["srv", "boot"] fsScenarioA goodClient 0 2 [] (by decide)⟩

/-- C6: at any point of the block loop where the reply to the current DATA
packet is a transport failure — a timeout, a reply shorter than 4 bytes, or a
reply that is not the matching ACK — the loop sends exactly that one DATA
packet and aborts: no retransmission, no further DATA; and no ERROR packet is
ever produced by the block loop (every packet it sends is DATA). -/
theorem c6_transport_failure_aborts_silently :
    (∀ (client : Nat → List Nat → ClientReply) (fuel blockNum : Nat) (remaining : List Nat),
        isTransportFailure (client blockNum (remaining.take 512)) blockNum = true →
        blockLoopF client (fuel + 1) blockNum remaining =
          ([Packet.DATA blockNum (remaining.take 512)], Outcome.Aborted)) ∧
    (∀ (client : Nat → List Nat → ClientReply) (fuel blockNum : Nat) (remaining : List Nat),
        ∀ p ∈ (blockLoopF client fuel blockNum remaining).1, p.isData = true) :=
  ⟨fun client fuel blockNum remaining hfail =>
      blockLoopF_step_fail client fuel blockNum remaining hfail,
    blockLoopF_all_data⟩

/-- A client that never replies in time: every wait for an ACK expires. -/
def silentClient : Nat → List Nat → ClientReply := fun _ _ => ClientReply.timeout

set_option maxRecDepth 8192 in
/-- Witness for C6: concrete scenario D, a client that never replies; the
session sends DATA block 1 and aborts with no ERROR packet. -/
theorem c6_transport_failure_witness :
    isTransportFailure (silentClient 1 ((List.replicate 600 7).take 512)) 1 = true ∧
    blockLoopF silentClient 1 1 (List.replicate 600 7) =
      ([Packet.DATA 1 ((List.replicate 600 7).take 512)], Outcome.Aborted) :=
  ⟨by decide,
    c6_transport_failure_aborts_silently.1 silentClient 0 1
      (List.replicate 600 7) (by decide)⟩

/-- C7: starting an already-started listener is a no-op that leaves the
observed bound port unchanged, and stopping twice, or stopping a
never-started listener, is a no-op. -/
theorem c7_start_stop_idempotent :
    (∀ (s : TftpServer) (p1 p2 : Nat),
        TftpServer.start p2 (TftpServer.start p1 s) = TftpServer.start p1 s) ∧
    (∀ (s : TftpServer) (p1 p2 : Nat),
        (TftpServer.start p2 (TftpServer.start p1 s)).sock_port =
          (TftpServer.start p1 s).sock_port) ∧
    (∀ s : TftpServer, TftpServer.stop (TftpServer.stop s) = TftpServer.stop s) ∧
    TftpServer.stop tftpInit = tftpInit := by
  refine ⟨?_, ?_, fun s => rfl, rfl⟩
  · intro s p1 p2
    by_cases h : s.sock.isSome
    · simp [TftpServer.start, h]
    · simp [TftpServer.start, h]
  · intro s p1 p2
    by_cases h : s.sock.isSome
    · simp [TftpServer.start, h]
    · simp [TftpServer.start, h]

/-- C8: when HTTPS is enabled but the certificate path or the key path is
absent (and the HTTPS service is not already running), the manager raises the
configuration error synchronously from `start`, the TFTP listener is left
untouched (not started), and the HTTP service has already gone through its
start — the partial start the caller must clean up with `stop`. -/
theorem c8_missing_cert_raises_before_tftp (s : BootServerState) (hp hsp tp : Nat)
    (hen : s.enable_https = true)
    (hns : s.https.server = false)
    (hmiss : s.https.certfile = none ∨ s.https.keyfile = none) :
    (bootServer.start hp hsp tp s).1 =
      some "Both certfile and keyfile are required for HTTPS" ∧
    (bootServer.start hp hsp tp s).2.tftp = s.tftp ∧
    (bootServer.start hp hsp tp s).2.http = HttpFileServer.start hp s.http := by
  have herr : HttpsFileServer.start hsp s.https =
      Except.error "Both certfile and keyfile are required for HTTPS" := by
    simp only [HttpsFileServer.start, hns]
    rw [if_neg (by simp), if_pos ?_]
    rcases hmiss with h | h
    · simp [h]
    · simp [h]
  simp only [bootServer.start, hen, herr]
  exact ⟨rfl, rfl, rfl⟩

/-- Witness for C8: a fresh manager with HTTPS enabled and no certificate or
key configured; `start` reports the configuration error, leaves TFTP
untouched, and has started HTTP. -/
theorem c8_missing_cert_witness :
    ((⟨httpInit, httpsInit none none, tftpInit, true, true⟩ :
        BootServerState).enable_https = true) ∧
    ((⟨httpInit, httpsInit none none, tftpInit, true, true⟩ :
        BootServerState).https.server = false) ∧
    ((⟨httpInit, httpsInit none none, tftpInit, true, true⟩ :
        BootServerState).https.certfile = none ∨
      (⟨httpInit, httpsInit none none, tftpInit, true, true⟩ :
        BootServerState).https.keyfile = none) ∧
    ((bootServer.start 8080 8443 69
        ⟨httpInit, httpsInit none none, tftpInit, true, true⟩).1 =
      some "Both certfile and keyfile are required for HTTPS" ∧
    (bootServer.start 8080 8443 69
        ⟨httpInit, httpsInit none none, tftpInit, true, true⟩).2.tftp = tftpInit ∧
    (bootServer.start 8080 8443 69
        ⟨httpInit, httpsInit none none, tftpInit, true, true⟩).2.http =
      HttpFileServer.start 8080 httpInit) :=
  ⟨rfl, rfl, Or.inl rfl,
    c8_missing_cert_raises_before_tftp ⟨httpInit, httpsInit none none, tftpInit, true, true⟩
      8080 8443 69 rfl rfl (Or.inl rfl)⟩

/-- C9: for each of the three services, the reported bound port is set
exactly when the service is running: the invariant holds initially, `start`
preserves it and establishes a present port, `stop` re-establishes it and
leaves the port absent (for HTTPS, a `start` that raises does not change the
state at all, so only the successful case is stated). -/
theorem c9_port_iff_running :
    (tftpInit.portMatchesRunning ∧
      (∀ (p : Nat) (s : TftpServer), s.portMatchesRunning →
        (TftpServer.start p s).portMatchesRunning ∧
          (TftpServer.start p s).sock_port.isSome = true) ∧
      (∀ s : TftpServer,
        (TftpServer.stop s).portMatchesRunning ∧ (TftpServer.stop s).sock_port = none)) ∧
    (httpInit.portMatchesRunning ∧
      (∀ (p : Nat) (s : HttpFileServer), s.portMatchesRunning →
        (HttpFileServer.start p s).portMatchesRunning ∧
          (HttpFileServer.start p s).sock_port.isSome = true) ∧
      (∀ s : HttpFileServer,
        (HttpFileServer.stop s).portMatchesRunning ∧
          (HttpFileServer.stop s).sock_port = none)) ∧
    ((∀ cert key : Option String, (httpsInit cert key).portMatchesRunning) ∧
      (∀ (p : Nat) (s s2 : HttpsFileServer), s.portMatchesRunning →
        HttpsFileServer.start p s = Except.ok s2 →
        s2.portMatchesRunning ∧ s2.sock_port.isSome = true) ∧
      (∀ s : HttpsFileServer,
        (HttpsFileServer.stop s).portMatchesRunning ∧
          (HttpsFileServer.stop s).sock_port = none)) := by
  refine ⟨⟨rfl, ?_, fun s => ⟨rfl, rfl⟩⟩, ⟨rfl, ?_, fun s => ⟨rfl, rfl⟩⟩,
    ⟨fun cert key => rfl, ?_, fun s => ⟨rfl, rfl⟩⟩⟩
  · intro p s hinv
    by_cases h : s.sock.isSome
    · constructor
      · simp [TftpServer.start, h, hinv]
      · simp only [TftpServer.portMatchesRunning] at hinv
        simp [TftpServer.start, h, hinv]
    · constructor
      · simp [TftpServer.start, h, TftpServer.portMatchesRunning]
      · simp [TftpServer.start, h]
  · intro p s hinv
    by_cases h : s.server
    · constructor
      · simp [HttpFileServer.start, h, hinv]
      · simp only [HttpFileServer.portMatchesRunning] at hinv
        simp [HttpFileServer.start, h, hinv]
    · constructor
      · simp [HttpFileServer.start, h, HttpFileServer.portMatchesRunning]
      · simp [HttpFileServer.start, h]
  · intro p s s2 hinv heq
    simp only [HttpsFileServer.start] at heq
    by_cases h : s.server
    · rw [if_pos h] at heq
      cases heq
      constructor
      · exact hinv
      · simp only [HttpsFileServer.portMatchesRunning] at hinv
        rw [hinv, h]
    · rw [if_neg h] at heq
      by_cases hc : s.certfile.isNone || s.keyfile.isNone
      · rw [if_pos hc] at heq
        cases heq
      · rw [if_neg hc] at heq
        cases heq
        exact ⟨rfl, rfl⟩

/-- The HTTPS service state after a successful start on port 8443 with a
certificate and key configured. -/
def httpsStarted : HttpsFileServer :=
  ⟨true, some 8443, some "c.pem", some "k.pem"⟩

/-- Witness for C9: the fresh TFTP listener satisfies the invariant, and
after `start` on port 69 the invariant still holds with the port present;
similarly the successful HTTPS start. -/
theorem c9_port_iff_running_witness :
    tftpInit.portMatchesRunning ∧
    ((TftpServer.start 69 tftpInit).portMatchesRunning ∧
      (TftpServer.start 69 tftpInit).sock_port.isSome = true) ∧
    ((httpsInit (some "c.pem") (some "k.pem")).portMatchesRunning ∧
      HttpsFileServer.start 8443 (httpsInit (some "c.pem") (some "k.pem")) =
        Except.ok httpsStarted ∧
      (httpsStarted.portMatchesRunning ∧ httpsStarted.sock_port.isSome = true)) :=
  ⟨by decide,
    c9_port_iff_running.1.2.1 69 tftpInit (by decide),
    by decide, rfl,
    c9_port_iff_running.2.2.2.1 8443 (httpsInit (some "c.pem") (some "k.pem"))
      httpsStarted (by decide) rfl⟩

/-- C10: invalid UTF-8 in the filename or mode field never causes an RRQ to
be rejected as malformed — the malformed-RRQ error depends only on the NUL
structure; invalid bytes are silently dropped by decoding, so the mode bytes
"oc\xFFtet" decode to "octet" and the filename bytes "bo\xFFot.img" decode to
"boot.img", and the handler treats such a request exactly like the request
with the clean fields. -/
theorem c10_invalid_utf8_ignored :
    (∀ (root : List String) (fs : List String → Option (List Nat))
        (client : Nat → List Nat → ClientReply) (rest : List Nat),
        2 ≤ (splitOnNul rest).length →
        Packet.ERROR 0 "Malformed RRQ" ∉ (handleRequest root fs client (0 :: 1 :: rest)).1) ∧
    utf8Ignore [111, 99, 255, 116, 101, 116] = octetChars ∧
    utf8Ignore [98, 111, 255, 111, 116, 46, 105, 109, 103] =
      ['b', 'o', 'o', 't', '.', 'i', 'm', 'g'] ∧
    (∀ (root : List String) (fs : List String → Option (List Nat))
        (client : Nat → List Nat → ClientReply),
        handleRequest root fs client
          (0 :: 1 :: ([98, 111, 255, 111, 116, 46, 105, 109, 103] ++ 0 ::
            ([111, 99, 255, 116, 101, 116] ++ [0]))) =
        handleRequest root fs client
          (0 :: 1 :: ([98, 111, 111, 116, 46, 105, 109, 103] ++ 0 ::
            ([111, 99, 116, 101, 116] ++ [0])))) := by
  refine ⟨?_, by decide, by decide, ?_⟩
  · intro root fs client rest hlen hmem
    simp only [handleRequest] at hmem
    rw [if_neg (by norm_num : ¬((0 : Nat) * 256 + 1 ≠ 1))] at hmem
    rcases hsp : splitOnNul rest with _ | ⟨p0, _ | ⟨p1, t⟩⟩
    · rw [hsp] at hlen; simp at hlen
    · rw [hsp] at hlen; simp at hlen
    · rw [hsp] at hmem
      split at hmem
      all_goals try split at hmem
      all_goals try split at hmem
      all_goals try split at hmem
      all_goals first
        | exact (by decide :
            Packet.ERROR 0 "Malformed RRQ" ∉ [Packet.ERROR 1 "File not found"]) hmem
        | exact (by decide :
            Packet.ERROR 0 "Malformed RRQ" ∉ [Packet.ERROR 2 "Access violation"]) hmem
        | exact (by decide :
            Packet.ERROR 0 "Malformed RRQ" ∉ [Packet.ERROR 0 "Only octet mode supported"]) hmem
        | (simp only [blockLoop] at hmem
           have hd := blockLoopF_all_data client _ _ _ _ hmem
           simp [Packet.isData] at hd)
  · intro root fs client
    rw [handleRequest_parsed root fs client _ _ (by decide) (by decide),
      handleRequest_parsed root fs client _ _ (by decide) (by decide)]
    rw [(by decide : utf8Ignore [98, 111, 255, 111, 116, 46, 105, 109, 103] =
        utf8Ignore [98, 111, 111, 116, 46, 105, 109, 103]),
      (by decide : utf8Ignore [111, 99, 255, 116, 101, 116] =
        utf8Ignore [111, 99, 116, 101, 116])]

/-- Witness for C10: a minimal RRQ with two NUL-separated fields is never
answered with the malformed-RRQ error. -/
theorem c10_invalid_utf8_witness :
    2 ≤ (splitOnNul ([98, 255] ++ 0 :: ([111, 99, 116, 101, 116] ++ [0]))).length ∧
    Packet.ERROR 0 "Malformed RRQ" ∉
      (handleRequest ["srv", "boot"] (fun _ => none) goodClient
        (0 :: 1 :: ([98, 255] ++ 0 :: ([111, 99, 116, 101, 116] ++ [0])))).1 :=
  ⟨by decide,
    c10_invalid_utf8_ignored.1 ["srv", "boot"] (fun _ => none) goodClient
      ([98, 255] ++ 0 :: ([111, 99, 116, 101, 116] ++ [0])) (by decide)⟩

end Bkub
